import Mathlib

/-!
Verification of the telemetry ingestion and bounded time-series pipeline of
`src/launch_control.py` (class `LaunchControlGUI`), as a shallow embedding.

Python floats are modelled as rationals (`ℚ`); the Python value `None` is the
extra constructor `PyVal.none`.  Fallible Python evaluation is modelled with an
explicit exception component (`PyErr`).  A raw serial line is modelled by the
list of comma-separated fields it splits into, each field recorded either as
the float it parses to or as unparsable.
-/

namespace LaunchControl

/-- A Python value held in one of the shared telemetry fields: either a number
(`float`/`int`, modelled as `ℚ`) or Python `None`. -/
inductive PyVal where
  | num (q : ℚ)
  | none
deriving DecidableEq, Repr

/-- The Python exceptions that the embedded code can raise. -/
inductive PyErr where
  | nameError
  | typeError
  | valueError
  | unicodeDecodeError
deriving DecidableEq, Repr

/-- One comma-separated field of a decoded serial line: either it parses as a
float with value `q`, or `float(...)` on it raises `ValueError`. -/
inductive LineField where
  | num (q : ℚ)
  | bad
deriving DecidableEq, Repr

/-- `float(v)` applied to one split field (lines 375-377). -/
def pyFloat : LineField → Except PyErr ℚ
  | .num q => .ok q
  | .bad => .error .valueError

/-- The shared telemetry fields of `LaunchControlGUI` written by the serial
reader thread and read by the sampling thread (lines 83-90 of `__init__`). -/
structure SharedState where
  current_pressure : PyVal
  current_altitude : PyVal
  temperature : PyVal
  gps_valid : Bool
  serial_error : Option String
deriving DecidableEq, Repr

/-- The initial shared state set in `__init__` (lines 83-90):
`current_pressure = 0`, `current_altitude = 0`, `temperature = 25.0`,
`gps_valid = False`, `serial_error = None`. -/
def initShared : SharedState :=
  { current_pressure := .num 0
    current_altitude := .num 0
    temperature := .num 25
    gps_valid := false
    serial_error := Option.none }

/-- The value bound to the local name `data_str` at line 371
(`values = data_str.split(',')`).  The name `data_str` is never assigned
anywhere in `read_serial_data` (it occurs exactly once in the file), so in
Python the lookup raises `NameError`; this is modelled by the binding being
absent. -/
def data_str : Option (List LineField) := Option.none

/-- Evaluating `data_str.split(',')` (line 371): reading an unbound local name
raises `NameError`; otherwise the split fields are returned. -/
def splitDataStr : Option (List LineField) → Except PyErr (List LineField)
  | Option.none => .error .nameError
  | Option.some vs => .ok vs

/-- Lines 373-395: the branch on `len(values) == 3`.  The three `float`
conversions are sequential attribute assignments, so a `ValueError` on a later
field leaves the earlier fields already overwritten; the result is the state
after the assignments that executed together with the exception raised, if
any.  The `else` branch (lines 386-395) assigns `None` to the three fields and
clears `serial_error`; its surrounding `try`/`except ValueError` cannot fire
on plain assignments.  The `print` diagnostics have no state effect. -/
def handleValues (st : SharedState) (values : List LineField) :
    SharedState × Option PyErr :=
  match values with
  | [v0, v1, v2] =>
    match pyFloat v0 with
    | .error e => (st, some e)
    | .ok p =>
      let st1 := { st with current_pressure := .num p }
      match pyFloat v1 with
      | .error e => (st1, some e)
      | .ok a =>
        let st2 := { st1 with current_altitude := .num a }
        match pyFloat v2 with
        | .error e => (st2, some e)
        | .ok t =>
          let st3 := { st2 with temperature := .num t, gps_valid := true }
          if st3.serial_error.isSome then
            ({ st3 with serial_error := Option.none }, Option.none)
          else
            (st3, Option.none)
  | _ =>
    let st1 := { st with current_pressure := PyVal.none,
                         current_altitude := PyVal.none,
                         temperature := PyVal.none }
    (if st1.serial_error.isSome then { st1 with serial_error := Option.none }
     else st1,
     Option.none)

/-- Lines 367-395: the body run for a decoded non-empty line.  It first
evaluates `values = data_str.split(',')`, which raises `NameError` because
`data_str` is unbound; the `(values, line)` branch logic is therefore never
reached.  The `fields` argument is the split of the line actually read (used
by the source only inside `print` diagnostics). -/
def handleLine (st : SharedState) (fields : List LineField) :
    SharedState × Option PyErr :=
  match splitDataStr data_str with
  | .error e => (st, some e)
  | .ok values =>
    let _ := fields
    handleValues st values

/-- Lines 364-397: one iteration of the inner `try`/`except
`(UnicodeDecodeError, ValueError)`` around the line handling.  A caught
exception only prints, so the loop continues with whatever state the body
left; any other exception propagates (second component `some e`). -/
def readLineStep (st : SharedState) (fields : List LineField) :
    SharedState × Option PyErr :=
  match handleLine st fields with
  | (st1, some .valueError) => (st1, Option.none)
  | (st1, some .unicodeDecodeError) => (st1, Option.none)
  | r => r

/-- One observable event of the serial read loop (lines 361-400). -/
inductive SerialEvent where
  | line (fields : List LineField)  -- a non-empty decoded line, split fields
  | emptyLine                       -- `line` falsy after strip; body skipped
  | decodeError                     -- decode raises; caught by the inner except
  | streamFail                      -- readline raises SerialException
deriving DecidableEq, Repr

/-- How the `read_serial_data` worker comes to rest. -/
inductive ReaderOutcome where
  | finished (st : SharedState)          -- loop exited via the stop flag
  | serialError (st : SharedState)       -- the except SerialException handler ran
  | crashed (e : PyErr) (st : SharedState)  -- uncaught exception; thread dead
deriving DecidableEq, Repr

/-- Lines 401-407: the `except serial.SerialException` handler: sets
`serial_error` and assigns the numeric sentinel `-1` to the three fields. -/
def serialExcHandler (st : SharedState) : SharedState :=
  { st with serial_error := some "Receiver Device Not Found!"
            current_pressure := .num (-1)
            current_altitude := .num (-1)
            temperature := .num (-1) }

/-- The read loop (lines 361-400) over the sequence of events the port
produces.  An uncaught exception from the line handling propagates out of the
loop (not a `SerialException`, so not caught at line 401) and kills the
thread; a mid-stream `SerialException` runs the handler at lines 401-407. -/
def processEvents (st : SharedState) : List SerialEvent → ReaderOutcome
  | [] => .finished st
  | .emptyLine :: rest => processEvents st rest
  | .decodeError :: rest => processEvents st rest
  | .streamFail :: _ => .serialError (serialExcHandler st)
  | .line fields :: rest =>
    match readLineStep st fields with
    | (st1, Option.none) => processEvents st1 rest
    | (st1, some e) => .crashed e st1

/-- The result of the single `serial.Serial(PORT, BAUD_RATE, timeout=1)` call
at line 360: either it raises `SerialException` or it yields a stream of
events. -/
inductive OpenResult where
  | failure
  | success (events : List SerialEvent)
deriving DecidableEq, Repr

/-- Lines 359-411: the whole `read_serial_data` worker.  The second component
counts the calls made to `serial.Serial` (the source contains exactly one such
call, executed once, with no retry loop around it). -/
def read_serial_data (st : SharedState) : OpenResult → ReaderOutcome × Nat
  | .failure => (.serialError (serialExcHandler st), 1)
  | .success events => (processEvents st events, 1)

/-- Python `l[-100:]` (lines 467-469): the last `n` elements of a list. -/
def takeLast (n : ℕ) (l : List α) : List α := l.drop (l.length - n)

/-- The history buffers and derived apogee maintained by `simulate_data`
(initialised empty / zero in `__init__`, lines 79-86). -/
structure SimState where
  time_data : List ℚ
  pressure_data : List PyVal
  height_data : List PyVal
  apogee : ℚ
deriving DecidableEq, Repr

/-- The state at `__init__`: empty buffers and `apogee = 0`. -/
def initSimState : SimState :=
  { time_data := [], pressure_data := [], height_data := [], apogee := 0 }

/-- The values one loop iteration of `simulate_data` reads: the computed
`current_time` and the snapshot of the shared fields written by the reader. -/
structure TickInput where
  current_time : ℚ
  current_pressure : PyVal
  current_altitude : PyVal
deriving DecidableEq, Repr

/-- Lines 429-471: one iteration of the `simulate_data` loop.
`height = self.current_altitude`; then `if height > self.apogee`, which in
Python raises `TypeError` when `height` is `None` (comparison of `NoneType`
with a number); then the three appends (lines 461-463) and the trim to the
last 100 entries guarded by `len(self.time_data) > 100` (lines 466-469). -/
def simTick (s : SimState) (i : TickInput) : Except PyErr SimState :=
  match i.current_altitude with
  | PyVal.none => .error .typeError
  | PyVal.num h =>
    let apogee1 := if s.apogee < h then h else s.apogee
    let time1 := s.time_data ++ [i.current_time]
    let pressure1 := s.pressure_data ++ [i.current_pressure]
    let height1 := s.height_data ++ [PyVal.num h]
    if 100 < time1.length then
      .ok { time_data := takeLast 100 time1
            pressure_data := takeLast 100 pressure1
            height_data := takeLast 100 height1
            apogee := apogee1 }
    else
      .ok { time_data := time1
            pressure_data := pressure1
            height_data := height1
            apogee := apogee1 }

/-- The `simulate_data` loop run over a list of tick inputs; an exception in
an iteration kills the thread. -/
def simRun (s : SimState) : List TickInput → Except PyErr SimState
  | [] => .ok s
  | i :: rest =>
    match simTick s i with
    | .ok s1 => simRun s1 rest
    | .error e => .error e

/-- Lines 496-498 of `update_display`: `velocity = 0`, then if
`len(self.height_data) > 1`, `velocity = (h[-1] - h[-2]) * 10`. -/
def displayVelocity (h : List ℚ) : ℚ :=
  if 1 < h.length then (h.getLastD 0 - h.dropLast.getLastD 0) * 10 else 0

/-- Modelled from the spec: "`velocity` = finite difference of altitude over a
fixed lookback window of samples (window size 1 ...) divided by elapsed time
over that window".  Stated for comparison with `displayVelocity`, which is the
source's computation. -/
def specVelocity (t h : List ℚ) : ℚ :=
  (h.getLastD 0 - h.dropLast.getLastD 0) / (t.getLastD 0 - t.dropLast.getLastD 0)

instance : DecidableEq (Except PyErr SimState) := fun a b =>
  match a, b with
  | .ok x, .ok y =>
    if h : x = y then .isTrue (by rw [h]) else .isFalse (by simp [h])
  | .error x, .error y =>
    if h : x = y then .isTrue (by rw [h]) else .isFalse (by simp [h])
  | .ok _, .error _ => .isFalse (by simp)
  | .error _, .ok _ => .isFalse (by simp)

/-- A concrete run of 101 identical ticks, used to exercise the eviction. -/
def w1inputs : List TickInput :=
  List.replicate 101
    { current_time := 0, current_pressure := PyVal.num 0,
      current_altitude := PyVal.num 0 }

/-- The state `simulate_data` reaches after the 101 ticks of `w1inputs`. -/
def w1state : SimState :=
  { time_data := List.replicate 100 0
    pressure_data := List.replicate 100 (PyVal.num 0)
    height_data := List.replicate 100 (PyVal.num 0)
    apogee := 0 }

/-- A concrete single-tick run. -/
def w8inputs : List TickInput :=
  [{ current_time := 0, current_pressure := PyVal.num 1,
     current_altitude := PyVal.num 2 }]

/-- The state `simulate_data` reaches after the tick of `w8inputs`. -/
def w8state : SimState :=
  { time_data := [0], pressure_data := [PyVal.num 1],
    height_data := [PyVal.num 2], apogee := 2 }

/-- A concrete tick input with altitude 5. -/
def w3input : TickInput :=
  { current_time := 0, current_pressure := PyVal.num 1,
    current_altitude := PyVal.num 5 }

/-- The state one tick on `w3input` from the initial state produces. -/
def w3state : SimState :=
  { time_data := [0], pressure_data := [PyVal.num 1],
    height_data := [PyVal.num 5], apogee := 5 }

/-! Theorems. -/

/-- Evaluating the line-handling body: the very first statement reads the
unbound name `data_str`, so the body raises `NameError` with the shared state
untouched, and the inner `except (UnicodeDecodeError, ValueError)` does not
catch it. -/
theorem readLineStep_nameError (st : SharedState) (fields : List LineField) :
    readLineStep st fields = (st, some PyErr.nameError) := rfl

/-- Every `serialError` outcome of the read loop carries the state produced by
the `except serial.SerialException` handler: the fixed non-empty message and
the numeric sentinel `-1` in all three fields. -/
theorem processEvents_serialError :
    ∀ (evs : List SerialEvent) (st st' : SharedState),
    processEvents st evs = ReaderOutcome.serialError st' →
    st'.serial_error = some "Receiver Device Not Found!" ∧
    st'.current_pressure = PyVal.num (-1) ∧
    st'.current_altitude = PyVal.num (-1) ∧
    st'.temperature = PyVal.num (-1)
  | [], st, st', h => by simp [processEvents] at h
  | .emptyLine :: rest, st, st', h =>
    processEvents_serialError rest st st' h
  | .decodeError :: rest, st, st', h =>
    processEvents_serialError rest st st' h
  | .streamFail :: _, st, st', h => by
    simp only [processEvents, ReaderOutcome.serialError.injEq] at h
    subst h
    exact ⟨rfl, rfl, rfl, rfl⟩
  | .line fields :: rest, st, st', h => by
    simp [processEvents, readLineStep_nameError] at h

/-- Claim C9 (code_bug evidence): as soon as the read loop sees a non-empty
decoded line — whatever its content, well-formed or not — it crashes with an
uncaught `NameError`, because the body splits the undefined name `data_str`
and the surrounding handler catches only `UnicodeDecodeError` and
`ValueError`.  The reader thread terminates with the shared state unchanged
and the remaining events unprocessed. -/
theorem nonempty_line_crashes_nameError (st : SharedState)
    (fields : List LineField) (rest : List SerialEvent) :
    processEvents st (SerialEvent.line fields :: rest)
      = ReaderOutcome.crashed PyErr.nameError st := rfl

/-- Claim C2 (counterexample): processing the malformed two-field line
`"bad,line"` is not a logged drop that leaves the state alone: the step does
not complete normally with the state unchanged (it ends with an uncaught
`NameError`). -/
theorem malformed_line_not_dropped_cex :
    readLineStep initShared [LineField.bad, LineField.bad]
      ≠ (initShared, (Option.none : Option PyErr)) := by decide

/-- Claim C2 (amended): processing any non-empty serial line — malformed
lines included — leaves the last-known sample fields unchanged, but not
because the line is dropped with a diagnostic: the body raises an uncaught
`NameError` (reading the undefined name `data_str`) before touching any
field, so the reader thread terminates; no branch of the field-count logic
ever runs and no malformed-line diagnostic is emitted. -/
theorem malformed_line_uncaught_nameError (st : SharedState)
    (fields : List LineField) :
    readLineStep st fields = (st, some PyErr.nameError) ∧
    (readLineStep st fields).1 = st :=
  ⟨rfl, rfl⟩

/-- Claim C6 (counterexample): on serial open failure the reader assigns the
numeric value `-1` — built with the same `PyVal.num` constructor as any
genuine sensor reading, not the distinct `None` marker — to pressure,
altitude and temperature, to signal the error condition. -/
theorem error_path_numeric_sentinel_cex :
    (read_serial_data initShared OpenResult.failure).1
      = ReaderOutcome.serialError (serialExcHandler initShared) ∧
    (serialExcHandler initShared).current_pressure = PyVal.num (-1) ∧
    (serialExcHandler initShared).current_altitude = PyVal.num (-1) ∧
    (serialExcHandler initShared).temperature = PyVal.num (-1) ∧
    PyVal.num (-1) ≠ PyVal.none := by decide

/-- Claim C6 (amended): on serial failure (open failure or mid-stream loss) —
the only reachable error path of the reader that writes the numeric fields —
the reader assigns the domain-legitimate numeric sentinel `-1` to pressure,
altitude and temperature, alongside the non-empty error message; the `None`
unknown marker is used only by the (unreachable) wrong-field-count branch. -/
theorem serial_failure_sets_minus_one (st0 : SharedState) (r : OpenResult)
    (st' : SharedState)
    (h : (read_serial_data st0 r).1 = ReaderOutcome.serialError st') :
    st'.current_pressure = PyVal.num (-1) ∧
    st'.current_altitude = PyVal.num (-1) ∧
    st'.temperature = PyVal.num (-1) ∧
    st'.serial_error = some "Receiver Device Not Found!" := by
  cases r with
  | failure =>
    simp only [read_serial_data, ReaderOutcome.serialError.injEq] at h
    subst h
    exact ⟨rfl, rfl, rfl, rfl⟩
  | success events =>
    have := processEvents_serialError events st0 st' h
    exact ⟨this.2.1, this.2.2.1, this.2.2.2, this.1⟩

/-- Witness for `serial_failure_sets_minus_one` at the concrete open-failure
run from the initial state. -/
theorem serial_failure_sets_minus_one_witness :
    (serialExcHandler initShared).current_pressure = PyVal.num (-1) ∧
    (serialExcHandler initShared).current_altitude = PyVal.num (-1) ∧
    (serialExcHandler initShared).temperature = PyVal.num (-1) ∧
    (serialExcHandler initShared).serial_error
      = some "Receiver Device Not Found!" :=
  serial_failure_sets_minus_one initShared OpenResult.failure
    (serialExcHandler initShared) rfl

/-- Claim C7: the reader calls `serial.Serial` exactly once per worker run —
it never re-attempts the open on its own (there is no reconnect logic in the
source at all) — and whenever it transitions to the serial-error outcome
(open failure, or the port disappearing mid-stream) it sets the shared error
status to the fixed non-empty message. -/
theorem reader_single_open_and_error_message (st0 : SharedState)
    (r : OpenResult) :
    (read_serial_data st0 r).2 = 1 ∧
    (∀ st', (read_serial_data st0 r).1 = ReaderOutcome.serialError st' →
      st'.serial_error = some "Receiver Device Not Found!" ∧
      "Receiver Device Not Found!" ≠ "") ∧
    (r = OpenResult.failure →
      (read_serial_data st0 r).1
        = ReaderOutcome.serialError (serialExcHandler st0)) := by
  refine ⟨?_, ?_, ?_⟩
  · cases r <;> rfl
  · intro st' h
    exact ⟨(serial_failure_sets_minus_one st0 r st' h).2.2.2, by decide⟩
  · intro hr
    subst hr
    rfl

/-- Witness for `reader_single_open_and_error_message` at the concrete
open-failure run from the initial state. -/
theorem reader_single_open_and_error_message_witness :
    (read_serial_data initShared OpenResult.failure).2 = 1 ∧
    (read_serial_data initShared OpenResult.failure).1
      = ReaderOutcome.serialError (serialExcHandler initShared) ∧
    (serialExcHandler initShared).serial_error
      = some "Receiver Device Not Found!" :=
  ⟨(reader_single_open_and_error_message initShared OpenResult.failure).1,
   (reader_single_open_and_error_message initShared OpenResult.failure).2.2 rfl,
   ((reader_single_open_and_error_message initShared OpenResult.failure).2.1
      (serialExcHandler initShared)
      ((reader_single_open_and_error_message initShared
          OpenResult.failure).2.2 rfl)).1⟩

/-- Claim C10 (code_bug evidence): when the shared altitude field holds
`None` — the value the wrong-field-count branch of the reader stores (lines
389-390) — the sampling loop's apogee update `if height > self.apogee` raises
`TypeError`, killing the sampling thread. -/
theorem apogee_update_typeError_on_none :
    simTick initSimState
      { current_time := 0, current_pressure := PyVal.num 0,
        current_altitude := PyVal.none }
      = Except.error PyErr.typeError := rfl

/-- Claim C4 (counterexample): with altitude history `[0, 1]` and time
history `[0, 1/5]` (elapsed 0.2 s over the window), the displayed velocity is
`(1 - 0) * 10 = 10`, not the finite difference divided by elapsed time,
`(1 - 0) / (1/5) = 5`. -/
theorem velocity_not_time_quotient_cex :
    1 < ([(0 : ℚ), 1] : List ℚ).length ∧
    displayVelocity [(0 : ℚ), 1]
      ≠ specVelocity [(0 : ℚ), 1 / 5] [(0 : ℚ), 1] := by
  constructor
  · decide
  · norm_num [displayVelocity, specVelocity]

/-- Claim C4 (amended): for histories with at least two samples the displayed
velocity is the altitude difference over the lookback window (size 1)
multiplied by the constant 10 (the nominal 10 Hz tick rate); it equals the
finite difference divided by the elapsed time over the window exactly when
that elapsed time is the nominal tick period 0.1 s. -/
theorem velocity_eq_quotient_at_nominal_dt (t h : List ℚ)
    (hh : 1 < h.length)
    (ht : t.getLastD 0 - t.dropLast.getLastD 0 = 1 / 10) :
    displayVelocity h = (h.getLastD 0 - h.dropLast.getLastD 0) * 10 ∧
    displayVelocity h = specVelocity t h := by
  unfold displayVelocity specVelocity
  rw [if_pos hh, ht]
  constructor
  · rfl
  · rw [div_div_eq_mul_div, div_one]

/-- Witness for `velocity_eq_quotient_at_nominal_dt` with time history
`[0, 1/10]` and altitude history `[0, 1]`. -/
theorem velocity_eq_quotient_at_nominal_dt_witness :
    displayVelocity [(0 : ℚ), 1]
      = (([(0 : ℚ), 1] : List ℚ).getLastD 0
          - ([(0 : ℚ), 1] : List ℚ).dropLast.getLastD 0) * 10 ∧
    displayVelocity [(0 : ℚ), 1] = specVelocity [(0 : ℚ), 1 / 10] [(0 : ℚ), 1] :=
  velocity_eq_quotient_at_nominal_dt [(0 : ℚ), 1 / 10] [(0 : ℚ), 1]
    (by decide) (by norm_num)

/-- Claim C5: with fewer than two samples in the altitude history the
computed velocity is exactly 0.  (In this embedding `displayVelocity` is a
total function into `ℚ`: the source computes the velocity with a constant
multiplication and performs no division at all, so no `NaN`/`Infinity` can
arise on any history.) -/
theorem velocity_zero_short_history (h : List ℚ) (hlen : h.length < 2) :
    displayVelocity h = 0 := by
  unfold displayVelocity
  rw [if_neg (by omega)]

/-- Witness for `velocity_zero_short_history` on the single-sample history
`[5]`. -/
theorem velocity_zero_short_history_witness :
    displayVelocity [(5 : ℚ)] = 0 :=
  velocity_zero_short_history [(5 : ℚ)] (by decide)

/-- The length of the last-`n` slice is `min` of the list length and `n`. -/
theorem takeLast_length (n : ℕ) (l : List α) :
    (takeLast n l).length = min l.length n := by
  simp [takeLast]
  omega

/-- A list short enough is untouched by the last-`n` slice. -/
theorem takeLast_of_le {n : ℕ} {l : List α} (h : l.length ≤ n) :
    takeLast n l = l := by
  simp [takeLast, Nat.sub_eq_zero_of_le h]

/-- The last-`n` slice, via reverse and take. -/
theorem takeLast_eq_reverse (n : ℕ) (l : List α) :
    takeLast n l = (l.reverse.take n).reverse :=
  List.rtake_eq_reverse_take_reverse l n

/-- Taking `n` from a cons commutes with having already taken `n` of the
tail. -/
theorem take_cons_take (r : List α) (n : ℕ) (x : α) :
    (x :: r.take n).take n = (x :: r).take n := by
  cases n with
  | zero => simp
  | succ k =>
    have hmin : min k (k + 1) = k := by omega
    simp [List.take_succ_cons, List.take_take, hmin]

/-- Appending one element and re-slicing to the last `n` absorbs an earlier
slice: the step invariant of the capped buffers. -/
theorem takeLast_append_takeLast (n : ℕ) (l : List α) (x : α) :
    takeLast n (takeLast n l ++ [x]) = takeLast n (l ++ [x]) := by
  rw [takeLast_eq_reverse n l, takeLast_eq_reverse, takeLast_eq_reverse]
  rw [List.reverse_append, List.reverse_reverse, List.reverse_append]
  simp only [List.reverse_cons, List.reverse_nil, List.nil_append,
    List.singleton_append]
  rw [take_cons_take]

/-- One successful tick keeps each history buffer equal to the last-100 slice
of everything appended to it so far. -/
theorem simTick_ok_buffers (s s' : SimState) (i : TickInput)
    (pre : List TickInput)
    (h : simTick s i = .ok s')
    (ht : s.time_data = takeLast 100 (pre.map TickInput.current_time))
    (hp : s.pressure_data = takeLast 100 (pre.map TickInput.current_pressure))
    (hh : s.height_data = takeLast 100 (pre.map TickInput.current_altitude)) :
    s'.time_data = takeLast 100 ((pre ++ [i]).map TickInput.current_time) ∧
    s'.pressure_data
      = takeLast 100 ((pre ++ [i]).map TickInput.current_pressure) ∧
    s'.height_data
      = takeLast 100 ((pre ++ [i]).map TickInput.current_altitude) := by
  unfold simTick at h
  cases halt : i.current_altitude with
  | none => rw [halt] at h; simp at h
  | num h0 =>
    rw [halt] at h
    dsimp only at h
    split at h
    · injection h with h2
      subst h2
      refine ⟨?_, ?_, ?_⟩ <;> dsimp only
      · rw [ht, List.map_append]
        simp only [List.map_cons, List.map_nil]
        exact takeLast_append_takeLast 100 _ _
      · rw [hp, List.map_append]
        simp only [List.map_cons, List.map_nil]
        exact takeLast_append_takeLast 100 _ _
      · rw [hh, List.map_append]
        simp only [List.map_cons, List.map_nil]
        rw [halt]
        exact takeLast_append_takeLast 100 _ _
    · rename_i hc
      injection h with h2
      subst h2
      have h1 : s.time_data.length = min pre.length 100 := by
        rw [ht, takeLast_length, List.length_map]
      have h2 : pre.length < 100 := by
        simp only [List.length_append, List.length_cons, List.length_nil] at hc
        omega
      have hts : takeLast 100 (pre.map TickInput.current_time)
          = pre.map TickInput.current_time :=
        takeLast_of_le (by rw [List.length_map]; omega)
      have hps : takeLast 100 (pre.map TickInput.current_pressure)
          = pre.map TickInput.current_pressure :=
        takeLast_of_le (by rw [List.length_map]; omega)
      have hhs : takeLast 100 (pre.map TickInput.current_altitude)
          = pre.map TickInput.current_altitude :=
        takeLast_of_le (by rw [List.length_map]; omega)
      refine ⟨?_, ?_, ?_⟩ <;> dsimp only
      · rw [ht, hts, List.map_append]
        simp only [List.map_cons, List.map_nil]
        rw [takeLast_of_le (by
          simp only [List.length_append, List.length_map, List.length_cons,
            List.length_nil]
          omega)]
      · rw [hp, hps, List.map_append]
        simp only [List.map_cons, List.map_nil]
        rw [takeLast_of_le (by
          simp only [List.length_append, List.length_map, List.length_cons,
            List.length_nil]
          omega)]
      · rw [hh, hhs, List.map_append]
        simp only [List.map_cons, List.map_nil]
        rw [halt]
        rw [takeLast_of_le (by
          simp only [List.length_append, List.length_map, List.length_cons,
            List.length_nil]
          omega)]

/-- Along any successful run of the sampling loop, each history buffer equals
the last-100 slice of the full appended sequence. -/
theorem simRun_buffers (rest : List TickInput) :
    ∀ (pre : List TickInput) (s s' : SimState),
    simRun s rest = .ok s' →
    s.time_data = takeLast 100 (pre.map TickInput.current_time) →
    s.pressure_data = takeLast 100 (pre.map TickInput.current_pressure) →
    s.height_data = takeLast 100 (pre.map TickInput.current_altitude) →
    s'.time_data = takeLast 100 ((pre ++ rest).map TickInput.current_time) ∧
    s'.pressure_data
      = takeLast 100 ((pre ++ rest).map TickInput.current_pressure) ∧
    s'.height_data
      = takeLast 100 ((pre ++ rest).map TickInput.current_altitude) := by
  induction rest with
  | nil =>
    intro pre s s' h ht hp hh
    unfold simRun at h
    injection h with h2
    subst h2
    rw [List.append_nil]
    exact ⟨ht, hp, hh⟩
  | cons i rest ih =>
    intro pre s s' h ht hp hh
    unfold simRun at h
    cases hstep : simTick s i with
    | error e => rw [hstep] at h; simp at h
    | ok s1 =>
      rw [hstep] at h
      dsimp only at h
      obtain ⟨ht1, hp1, hh1⟩ := simTick_ok_buffers s s1 i pre hstep ht hp hh
      have hres := ih (pre ++ [i]) s1 s' h ht1 hp1 hh1
      rw [List.append_assoc, List.singleton_append] at hres
      exact hres

/-- Claim C1: starting from the empty buffers of `__init__`, after any
sequence of sampling-loop ticks each of the three history buffers (time,
pressure, altitude) has length at most 100, and after more than 100 appends
each buffer is exactly the last 100 appended values in arrival order (oldest
evicted first).  Every executed tick is the last tick of some input prefix,
so quantifying over all input lists covers the state at the end of every
tick. -/
theorem simRun_buffers_bounded_last100 (inputs : List TickInput) (s : SimState)
    (h : simRun initSimState inputs = .ok s) :
    (s.time_data.length ≤ 100 ∧ s.pressure_data.length ≤ 100 ∧
      s.height_data.length ≤ 100) ∧
    (100 < inputs.length →
      s.time_data
        = (inputs.map TickInput.current_time).drop (inputs.length - 100) ∧
      s.pressure_data
        = (inputs.map TickInput.current_pressure).drop (inputs.length - 100) ∧
      s.height_data
        = (inputs.map TickInput.current_altitude).drop (inputs.length - 100)) := by
  obtain ⟨ht, hp, hh⟩ := simRun_buffers inputs [] initSimState s h rfl rfl rfl
  rw [List.nil_append] at ht hp hh
  constructor
  · refine ⟨?_, ?_, ?_⟩
    · rw [ht, takeLast_length, List.length_map]; omega
    · rw [hp, takeLast_length, List.length_map]; omega
    · rw [hh, takeLast_length, List.length_map]; omega
  · intro _
    refine ⟨?_, ?_, ?_⟩
    · rw [ht]; unfold takeLast; rw [List.length_map]
    · rw [hp]; unfold takeLast; rw [List.length_map]
    · rw [hh]; unfold takeLast; rw [List.length_map]

set_option maxRecDepth 10000 in
/-- Witness for `simRun_buffers_bounded_last100` on the concrete 101-tick run
`w1inputs`, which fills the buffers past capacity and evicts one element. -/
theorem simRun_buffers_bounded_last100_witness :
    ((w1state.time_data.length ≤ 100 ∧ w1state.pressure_data.length ≤ 100 ∧
      w1state.height_data.length ≤ 100) ∧
     (100 < w1inputs.length →
       w1state.time_data
         = (w1inputs.map TickInput.current_time).drop (w1inputs.length - 100) ∧
       w1state.pressure_data
         = (w1inputs.map TickInput.current_pressure).drop
             (w1inputs.length - 100) ∧
       w1state.height_data
         = (w1inputs.map TickInput.current_altitude).drop
             (w1inputs.length - 100))) :=
  simRun_buffers_bounded_last100 w1inputs w1state (by decide)

/-- Claim C8: after every iteration of the sampling loop the three history
buffers have equal length — the appends (lines 461-463) and the trims (lines
466-469) are applied to all three together — so index `i` in every channel
refers to the same sample tick. -/
theorem buffers_index_aligned (inputs : List TickInput) (s : SimState)
    (h : simRun initSimState inputs = .ok s) :
    s.time_data.length = s.pressure_data.length ∧
    s.pressure_data.length = s.height_data.length := by
  obtain ⟨ht, hp, hh⟩ := simRun_buffers inputs [] initSimState s h rfl rfl rfl
  rw [List.nil_append] at ht hp hh
  rw [ht, hp, hh, takeLast_length, takeLast_length, takeLast_length,
    List.length_map, List.length_map, List.length_map]
  exact ⟨rfl, rfl⟩

/-- Witness for `buffers_index_aligned` on the concrete one-tick run
`w8inputs`. -/
theorem buffers_index_aligned_witness :
    w8state.time_data.length = w8state.pressure_data.length ∧
    w8state.pressure_data.length = w8state.height_data.length :=
  buffers_index_aligned w8inputs w8state (by decide)

/-- Claim C3: apogee starts the session at 0 (`self.apogee = 0` in
`__init__`, the only reset — the session here is the whole program run, the
threads being started at construction) and is non-decreasing across every
iteration of the sampling loop: each completed tick sets it to
`max(apogee, altitude)` (lines 457-458). -/
theorem apogee_monotone_from_zero (s s' : SimState) (i : TickInput)
    (h : simTick s i = .ok s') :
    initSimState.apogee = 0 ∧ s.apogee ≤ s'.apogee ∧
    ∀ q, i.current_altitude = PyVal.num q → s'.apogee = max s.apogee q := by
  unfold simTick at h
  cases halt : i.current_altitude with
  | none => rw [halt] at h; simp at h
  | num h0 =>
    rw [halt] at h
    dsimp only at h
    have happ : s'.apogee = if s.apogee < h0 then h0 else s.apogee := by
      split at h <;> (injection h with h2; subst h2; rfl)
    refine ⟨rfl, ?_, ?_⟩
    · rw [happ]
      split
      · exact le_of_lt (by assumption)
      · exact le_refl _
    · intro q hq
      injection hq with hq
      subst hq
      rw [happ]
      rcases lt_or_ge s.apogee h0 with hlt | hge
      · rw [if_pos hlt, max_eq_right (le_of_lt hlt)]
      · rw [if_neg (not_lt.mpr hge), max_eq_left hge]

/-- Witness for `apogee_monotone_from_zero` on the concrete tick `w3input`
from the initial state. -/
theorem apogee_monotone_from_zero_witness :
    initSimState.apogee = 0 ∧ initSimState.apogee ≤ w3state.apogee ∧
    w3state.apogee = max initSimState.apogee 5 :=
  have h := apogee_monotone_from_zero initSimState w3state w3input (by decide)
  ⟨h.1, h.2.1, h.2.2 5 rfl⟩

end LaunchControl
